import Mathlib

/-!
Shallow embedding of the `cmdict` German word-lookup pipeline.

The Python sources embedded here are:
- `src/cmdict/utils.py` (string helpers),
- `src/cmdict/check.py` (spelling correction `check_de`),
- `src/cmdict/german/pos.py` (part-of-speech resolution `crawl_pos_de`),
- `src/cmdict/german/spelling.py` (`Word` construction from a wiktionary page),
- `src/cmdict/german/article.py` (the fixed definite/indefinite article tables),
- `src/cmdict/german/noun.py` (`Noun` and its inflection-table parsing),
- `src/cmdict/german/verb.py` (`Verb` and its present-tense conjugation crawl).

Network I/O is modelled by passing the fetched page content explicitly: a
wiktionary fetch becomes a function `String → WikiPage` giving, for each
spelling, the two pieces of page content the code extracts; an HTTP response
becomes an explicit `HttpResponse` value.  A raised Python exception is
modelled by `Option`/`Except` failure.
-/

/-! ## Python string primitives -/

/-- Does the second list start with the first one (pattern, then subject)? -/
def listStartsWith : List Char → List Char → Bool
  | [], _ => true
  | _ :: _, [] => false
  | a :: as, b :: bs => a == b && listStartsWith as bs

/-- Helper for `pySplit`: fuel-indexed scan over the subject characters.
`acc` holds the current chunk reversed.  The fuel is an upper bound on the
number of characters still to be consumed, so the `0` fallback is never hit
when called with fuel `= length + 1`. -/
def pySplitAux (sep : List Char) : Nat → List Char → List Char → List (List Char)
  | _, acc, [] => [acc.reverse]
  | 0, acc, s => [acc.reverse ++ s]
  | Nat.succ fuel, acc, c :: rest =>
    if listStartsWith sep (c :: rest) then
      acc.reverse :: pySplitAux sep fuel [] (List.drop sep.length (c :: rest))
    else
      pySplitAux sep fuel (c :: acc) rest

/-- Python `s.split(sep)` for a non-empty separator `sep`: split at every
non-overlapping occurrence of `sep`, scanning left to right, keeping empty
chunks.  (Python raises `ValueError` on an empty separator; the code under
study never passes one, so that case is given a harmless value here.) -/
def pySplit (s sep : String) : List String :=
  if sep.data = [] then [s]
  else (pySplitAux sep.data (s.data.length + 1) [] s.data).map String.mk

example : pySplit "" "," = [""] := by decide
example : pySplit "das Kind" " " = ["das", "Kind"] := by decide
example : pySplit "x" "x " = ["x"] := by decide
example : pySplit "des Kindes\ndes Kinds" "des " = ["", "Kindes\n", "Kinds"] := by decide

/-- `cmdict.utils.remove_newline`: split on `"\n"` and concatenate the parts,
i.e. delete every newline character. -/
def remove_newline (s : String) : String :=
  (pySplit s "\n").foldl (fun res split => res ++ split) ""

/-- `cmdict.utils.remove_cdot`: Python `s.replace("·", "")`.  The pattern is a
single character, so replacing it by the empty string deletes each occurrence. -/
def remove_cdot (s : String) : String :=
  String.mk (s.data.filter (fun c => c ≠ '·'))

example : remove_newline "Kindes\n" = "Kindes" := by decide
example : remove_cdot "Kin·der" = "Kinder" := by decide

/-- The upper-to-lower case table for the alphabet the program works with:
the 26 ASCII letters and the three German umlaut vowels. -/
def lowerPairs : List (Char × Char) :=
  [('A', 'a'), ('B', 'b'), ('C', 'c'), ('D', 'd'), ('E', 'e'), ('F', 'f'),
   ('G', 'g'), ('H', 'h'), ('I', 'i'), ('J', 'j'), ('K', 'k'), ('L', 'l'),
   ('M', 'm'), ('N', 'n'), ('O', 'o'), ('P', 'p'), ('Q', 'q'), ('R', 'r'),
   ('S', 's'), ('T', 't'), ('U', 'u'), ('V', 'v'), ('W', 'w'), ('X', 'x'),
   ('Y', 'y'), ('Z', 'z'), ('Ä', 'ä'), ('Ö', 'ö'), ('Ü', 'ü')]

/-- Python `str.lower` on one character, restricted to the alphabet in
`lowerPairs`.  Characters outside the table are left unchanged. -/
def charLower (c : Char) : Char :=
  ((lowerPairs.find? (fun p => p.1 == c)).map (fun p => p.2)).getD c

/-- Python `str.upper` on one character, same alphabet as `charLower`. -/
def charUpper (c : Char) : Char :=
  ((lowerPairs.find? (fun p => p.2 == c)).map (fun p => p.1)).getD c

/-- Python `s.lower()`: lower-case every character. -/
def pyLower (s : String) : String :=
  String.mk (s.data.map charLower)

/-- Python `s[:1].upper() + s[1:]` as used by `Noun.__init__`: upper-case the
first character, keep the rest. -/
def pyCapitalize (s : String) : String :=
  match s.data with
  | [] => ""
  | c :: cs => String.mk (charUpper c :: cs)

example : pyLower "Dank" = "dank" := by decide
example : pyLower "Schläfst" = "schläfst" := by decide
example : pyCapitalize "fußball" = "Fußball" := by decide

/-- The lower-case alphabet: the image of `charLower` away from its fixed
points. -/
def lowerAlphabet : List Char :=
  ['a', 'b', 'c', 'd', 'e', 'f', 'g', 'h', 'i', 'j', 'k', 'l', 'm',
   'n', 'o', 'p', 'q', 'r', 's', 't', 'u', 'v', 'w', 'x', 'y', 'z',
   'ä', 'ö', 'ü']

theorem charLower_fixes_lower : ∀ d ∈ lowerAlphabet, charLower d = d := by decide

theorem charLower_cases (c : Char) : charLower c = c ∨ charLower c ∈ lowerAlphabet := by
  unfold charLower
  cases h : lowerPairs.find? (fun p => p.1 == c) with
  | none => exact Or.inl rfl
  | some p =>
    refine Or.inr ?_
    show p.2 ∈ lowerAlphabet
    have hmem : p ∈ lowerPairs := List.mem_of_find?_eq_some h
    have : p.2 ∈ lowerPairs.map (fun q => q.2) := List.mem_map_of_mem _ hmem
    have htab : lowerPairs.map (fun q : Char × Char => q.2) = lowerAlphabet := by decide
    rw [htab] at this
    exact this

theorem charLower_idem (c : Char) : charLower (charLower c) = charLower c := by
  rcases charLower_cases c with h | h
  · rw [h]; exact h
  · exact charLower_fixes_lower _ h

theorem pyLower_idem (s : String) : pyLower (pyLower s) = pyLower s := by
  unfold pyLower
  refine congrArg String.mk ?_
  show (s.data.map charLower).map charLower = s.data.map charLower
  rw [List.map_map]
  exact List.map_congr_left (fun c _ => charLower_idem c)

/-! ## `cmdict.check`: spelling correction

`check_de` lower-cases the input and hands it to the external
`pyspellchecker` library.  The library is out of scope (the spec treats it as
an external collaborator), so it is modelled abstractly: a `Checker` carries
the set of known words and an arbitrary correction function; the theorems
assume only the documented contract that a known word is returned unchanged. -/

/-- Abstract model of the external `SpellChecker(language="de")` object. -/
structure Checker where
  dictWords : List String
  correction : String → String

/-- `cmdict.check.check_de`: lower-case the input, then ask the checker for
the most likely correction.  (The logging branch has no effect on the
returned value and is not modelled.) -/
def check_de (ck : Checker) (spelling : String) : String :=
  ck.correction (pyLower spelling)

/-! ## `cmdict.german.pos`: part-of-speech resolution -/

/-- JSON values, as produced by `response.json()`. -/
inductive Json where
  | null : Json
  | jbool : Bool → Json
  | jnum : Int → Json
  | jstr : String → Json
  | jarr : List Json → Json
  | jobj : List (String × Json) → Json

/-- Python `j[i]` on a decoded JSON value: succeeds only on an array with an
`i`-th element; anything else raises (`none`). -/
def jIndex (j : Json) (i : Nat) : Option Json :=
  match j with
  | Json.jarr xs => xs.get? i
  | _ => none

/-- Python `j[k]` for a string key: succeeds only on an object containing the
key; anything else raises (`none`). -/
def jKey (j : Json) (k : String) : Option Json :=
  match j with
  | Json.jobj fields => (fields.find? (fun kv => kv.1 == k)).map (fun kv => kv.2)
  | _ => none

/-- One HTTP response as seen by `crawl_pos_de`.  `jsonBody = none` models a
body that `response.json()` fails to decode (which raises). -/
structure HttpResponse where
  statusCode : Nat
  jsonBody : Option Json

/-- `cmdict.german.pos.PartOfSpeechDe`. -/
inductive PartOfSpeechDe where
  | Verb
  | Noun
  | Adv
  | Adj
deriving DecidableEq

/-- The access path `crawled.json()[0]["hits"][0]["roms"][0]["wordclass"]`. -/
def wordclassOf (body : Option Json) : Option Json :=
  body.bind fun j =>
    (jIndex j 0).bind fun entry =>
      (jKey entry "hits").bind fun hits =>
        (jIndex hits 0).bind fun hit =>
          (jKey hit "roms").bind fun roms =>
            (jIndex roms 0).bind fun rom =>
              jKey rom "wordclass"

/-- `cmdict.german.pos.crawl_pos_de`, given the transport's response for the
requested `(word, id_api)` pair.  On a 200 response the code descends the
fixed JSON path and splits the word-class string on a space; any failure on
that path (undecodable body, missing index or key, non-string word class)
raises, modelled as `Except.error ()`.  On a non-200 status it logs and
returns `None`. -/
def crawl_pos_de (word id_api : String) (resp : HttpResponse) :
    Except Unit (Option PartOfSpeechDe) :=
  if resp.statusCode = 200 then
    match wordclassOf resp.jsonBody with
    | some (Json.jstr posRaw) =>
      let posRawList := pySplit posRaw " "
      if "verb" ∈ posRawList then Except.ok (some PartOfSpeechDe.Verb)
      else if "noun" ∈ posRawList then Except.ok (some PartOfSpeechDe.Noun)
      else Except.ok none
    | _ => Except.error ()
  else Except.ok none

/-! ## `cmdict.german.spelling`: `Word` construction from a wiktionary page -/

/-- The content extracted from one wiktionary page by `Word.__init__`:
`ipaSpan` is the text of the first `span` of class `ipa` (`none` when the
page has no such span, in which case the caught `AttributeError` leaves the
field empty); `syllabText` is the text of the element located through the
fixed-title marker paragraph (`none` when the marker paragraph is absent, in
which case the `AttributeError` propagates and construction fails). -/
structure WikiPage where
  ipaSpan : Option String
  syllabText : Option String

/-- The result of a successful `Word.__init__`: the observable fields. -/
structure Word where
  spelling : String
  ipa : String
  syllabification : String
deriving DecidableEq

/-- `Word._assign_ipa`: the IPA span wrapped in brackets when present; a
missing span raises `AttributeError`, which is caught and leaves the field
at its initial empty string. -/
def ipaOf (page : WikiPage) : String :=
  match page.ipaSpan with
  | some t => "[" ++ t ++ "]"
  | none => ""

/-- `spelling.Word.__init__`, given the wiktionary fetch `env`.  The
syllabification is the scraped text before its first comma, stored whether
or not its center-dot-stripped form matches the requested spelling (a
mismatch is only logged). -/
def Word.build (env : String → WikiPage) (spelling : String) : Option Word :=
  match (env spelling).syllabText with
  | none => none
  | some t =>
    some { spelling := spelling, ipa := ipaOf (env spelling),
           syllabification := (pySplit t ",").headD "" }

/-- Evaluation lemma for `Word.build` when the syllabification marker is
present. -/
theorem wordBuild_eq (env : String → WikiPage) (sp t : String)
    (h : (env sp).syllabText = some t) :
    Word.build env sp
      = some { spelling := sp, ipa := ipaOf (env sp),
               syllabification := (pySplit t ",").headD "" } := by
  unfold Word.build
  rw [h]

/-! ## `cmdict.german.article`: the fixed article tables -/

namespace article

/-- `article.Gender`: the three grammatical genders plus the placeholder
used for the gender-neutral plural forms. -/
inductive Gender where
  | M
  | F
  | N
  | X
deriving DecidableEq

/-- `article.Case`. -/
inductive Case where
  | N
  | G
  | D
  | A
deriving DecidableEq

/-- `article._ARTICLES_DEF`: spelling and features of the 16 definite
articles, in source order. -/
def ARTICLES_DEF_DATA : List (String × Bool × Gender × Case) :=
  [("der", true, Gender.M, Case.N),
   ("die", true, Gender.F, Case.N),
   ("das", true, Gender.N, Case.N),
   ("die", false, Gender.X, Case.N),
   ("den", true, Gender.M, Case.A),
   ("die", true, Gender.F, Case.A),
   ("das", true, Gender.N, Case.A),
   ("die", false, Gender.X, Case.A),
   ("des", true, Gender.M, Case.G),
   ("der", true, Gender.F, Case.G),
   ("des", true, Gender.N, Case.G),
   ("der", false, Gender.X, Case.G),
   ("dem", true, Gender.M, Case.D),
   ("der", true, Gender.F, Case.D),
   ("dem", true, Gender.N, Case.D),
   ("den", false, Gender.X, Case.D)]

/-- `article.ARTICLES_DEF`, keyed by `(singular, gender, case)`, resolving to
the article's spelling.  (In the source each value is a `Declension` object
whose construction also crawls a wiktionary page for the article; only its
`spelling` field is ever observed, so the table maps to that field.) -/
def ARTICLES_DEF (key : Bool × Gender × Case) : Option String :=
  (ARTICLES_DEF_DATA.find? (fun it => it.2.1 = key.1 ∧ it.2.2.1 = key.2.1 ∧ it.2.2.2 = key.2.2)).map
    (fun it => it.1)

end article

/-! ## `cmdict.german.noun`: the noun model -/

namespace noun

/-- `noun.Gender`: the three grammatical genders (this module's own copy of
the enumeration, without the plural placeholder). -/
inductive Gender where
  | M
  | F
  | N
deriving DecidableEq

/-- `noun.NounCase`. -/
inductive NounCase where
  | N
  | G
  | D
  | A
deriving DecidableEq

/-- `noun.DeclensionMethod`: the eight ways to inflect a German noun. -/
inductive DeclensionMethod where
  | NS
  | NP
  | GS
  | GP
  | DS
  | DP
  | AS
  | AP
deriving DecidableEq

/-- The case component of a declension method (`declension.value[0]`). -/
def DeclensionMethod.case : DeclensionMethod → NounCase
  | .NS => .N
  | .NP => .N
  | .GS => .G
  | .GP => .G
  | .DS => .D
  | .DP => .D
  | .AS => .A
  | .AP => .A

/-- The number component of a declension method (`declension.value[1]`). -/
def DeclensionMethod.singular : DeclensionMethod → Bool
  | .NS => true
  | .NP => false
  | .GS => true
  | .GP => false
  | .DS => true
  | .DP => false
  | .AS => true
  | .AP => false

/-- The enumeration order of `DeclensionMethod`, as produced by
`iter(DeclensionMethod)`. -/
def DeclensionMethod.order : List DeclensionMethod :=
  [.NS, .NP, .GS, .GP, .DS, .DP, .AS, .AP]

/-- One `td` cell of the scraped inflection table: its text content and the
number of sub-elements found by `cell.find_all()`. -/
structure Cell where
  text : String
  subElementCount : Nat
deriving DecidableEq

/-- `noun.Declension`: a word form tagged with its origin and declension
features; the `Word` part is scraped from the form's own wiktionary page. -/
structure Declension where
  word : Word
  origin : String
  singular : Bool
  case : NounCase
deriving DecidableEq

/-- `noun.Declension.from_method`, given the wiktionary fetch `env`
(construction crawls the declension's own page and fails when that page has
no syllabification marker). -/
def Declension.from_method (env : String → WikiPage) (spelling origin : String)
    (declension : DeclensionMethod) : Option Declension :=
  (Word.build env spelling).map
    (fun w => { word := w, origin := origin,
                singular := declension.singular, case := declension.case })

/-- The first space-token of a cell's text (`cell.text.split(" ")[0]`). -/
def cellArticle (cell : Cell) : String :=
  (pySplit cell.text " ").headD ""

/-- The spelling pieces of a cell: its text split on the article token
followed by a space (`cell.text.split(article + " ")`). -/
def cellPieces (cell : Cell) : List String :=
  pySplit cell.text (cellArticle cell ++ " ")

/-- The pure text-splitting part of one cell of `Noun._assign_tables`:
the article is the cell text's first space-token, and the spellings are
pieces 1 (and, when the cell has two or more sub-elements, also 2) of the
cell text split on `article ++ " "`, each with newlines removed.  A missing
piece models the raised `IndexError`. -/
def parseCellRaw (cell : Cell) : Option (String × List String) :=
  if 2 ≤ cell.subElementCount then
    match (cellPieces cell).get? 1, (cellPieces cell).get? 2 with
    | some s1, some s2 => some (cellArticle cell, [remove_newline s1, remove_newline s2])
    | _, _ => none
  else
    match (cellPieces cell).get? 1 with
    | some s1 => some (cellArticle cell, [remove_newline s1])
    | none => none

/-- One fully processed cell: the slot's method, its article, its spelling
list, and the `Declension` objects built for each spelling (each of which
crawls its own wiktionary page). -/
structure NounEntry where
  method : DeclensionMethod
  article : String
  spellings : List String
  declensions : List Declension
deriving DecidableEq

/-- Processing of one cell under declension method `m`: split the text, then
build a `Declension` for every spelling; any failure propagates. -/
def parseCell (env : String → WikiPage) (origin : String) (m : DeclensionMethod)
    (cell : Cell) : Option NounEntry :=
  match parseCellRaw cell with
  | none => none
  | some (article, spellingList) =>
    match spellingList.mapM (fun spelling => Declension.from_method env spelling origin m) with
    | none => none
    | some declensionList =>
      some { method := m, article := article,
             spellings := spellingList, declensions := declensionList }

/-- The cells visited by `Noun._assign_tables`: the first two `td` cells of
rows 1 to 4 of the table body (`find_all("tr")[1:5]`, `find_all("td")[0:2]`). -/
def takenCells (rows : List (List Cell)) : List Cell :=
  (((rows.drop 1).take 4).map (fun r => r.take 2)).flatten

/-- The cell loop of `Noun._assign_tables`: each visited cell consumes the
next declension method from the enumeration and is processed with it; a cell
with no method left would raise `StopIteration` (unreachable: at most 8 cells
are ever visited). -/
def assignCells (env : String → WikiPage) (origin : String) :
    List Cell → List DeclensionMethod → Option (List NounEntry)
  | [], _ => some []
  | _ :: _, [] => none
  | cell :: cells, m :: ms =>
    match parseCell env origin m cell with
    | none => none
    | some entry =>
      match assignCells env origin cells ms with
      | none => none
      | some rest => some (entry :: rest)

/-- `Noun._assign_tables`, given the rows of the inflection table's body. -/
def assignTables (env : String → WikiPage) (origin : String)
    (rows : List (List Cell)) : Option (List NounEntry) :=
  assignCells env origin (takenCells rows) DeclensionMethod.order

/-- The observable result of `Noun.__init__`. -/
structure Noun where
  word : Word
  gender : Gender
  entries : List NounEntry
deriving DecidableEq

/-- `noun.Noun.__init__`: capitalize the first letter of the checked
spelling, build the base `Word` from its wiktionary page, set the gender to
the constant `Gender.N`, and fill the declension tables from the page's
inflection table (given here as its list of body rows). -/
def Noun.build (env : String → WikiPage) (checked : String)
    (rows : List (List Cell)) : Option Noun :=
  match Word.build env (pyCapitalize checked) with
  | none => none
  | some base =>
    match assignTables env (pyCapitalize checked) rows with
    | none => none
    | some entries => some { word := base, gender := Gender.N, entries := entries }

end noun

/-! ## `cmdict.german.verb`: the verb model -/

namespace verb

/-- `verb._PRESENT_LIST`: the six pronoun slots in fixed order. -/
def PRESENT_LIST : List String :=
  ["ich", "du", "er", "wir", "ihr", "sie"]

/-- `verb.VerbConjugation`: one conjugated form; the `Word` part is scraped
from the form's own wiktionary page. -/
structure VerbConjugation where
  which : String
  origin : String
  word : Word
deriving DecidableEq

/-- `verb.VerbConjugation.__init__`. -/
def VerbConjugation.build (env : String → WikiPage) (which spelling : String)
    (origin : String) : Option VerbConjugation :=
  (Word.build env spelling).map
    (fun w => { which := which, origin := origin, word := w })

/-- The loop of `Verb.crawl_present`: for `i` in `0..5`, the slot
`PRESENT_LIST[i]` receives a conjugation whose spelling is piece 1 of the
`i`-th list item's text split on a space.  The loop walks the pronoun slots
and the list items in lockstep (the source indexes `conjugations[i]` with
`i` ascending from 0, which visits the items in this order); running out of
list items models the raised `IndexError`, and a missing piece 1 likewise. -/
def crawlPresentAux (env : String → WikiPage) (origin : String) :
    List String → List String → Option (List (String × VerbConjugation))
  | [], _ => some []
  | _ :: _, [] => none
  | which :: ps, li :: lis =>
    match (pySplit li " ").get? 1 with
    | none => none
    | some how =>
      match VerbConjugation.build env which how origin with
      | none => none
      | some conj =>
        match crawlPresentAux env origin ps lis with
        | none => none
        | some rest => some ((which, conj) :: rest)

/-- The observable result of `Verb.__init__`: the base word and the
present-tense map in its fixed key order. -/
structure Verb where
  word : Word
  present : List (String × VerbConjugation)
deriving DecidableEq

/-- `verb.Verb.__init__`, given the wiktionary fetch `env` and the texts of
the list items found inside the conjugation page's fixed nested container. -/
def Verb.build (env : String → WikiPage) (lis : List String)
    (spelling : String) : Option Verb :=
  match Word.build env spelling with
  | none => none
  | some base =>
    match crawlPresentAux env spelling PRESENT_LIST lis with
    | none => none
    | some present => some { word := base, present := present }

end verb

/-! ## Reference-level model of `verb.Verb.present`

`Verb.__init__` executes `self.present = _PRESENT`, which stores a reference
to the module-level dictionary `_PRESENT` — not a copy — and
`crawl_present` then writes the six conjugations through that reference.
This second model of `verb.py` makes the aliasing explicit: a store holds
the dictionary objects, the module-level `_PRESENT` lives at address 0, and
each `Verb` object records the address of the dictionary its `present`
attribute points to.  Dictionary values are projected to the conjugated
surface form, the observable that distinguishes two verbs' conjugations;
the wiktionary scraping of `Word.__init__` never touches the shared
dictionary and is orthogonal to this model. -/

namespace verbstore

/-- One Python dict mapping pronoun slots to an optional conjugated form. -/
def PresentDict : Type := List (String × Option String)

instance : DecidableEq PresentDict := by
  unfold PresentDict
  infer_instance

/-- The store of dictionary objects; an address is an index into it. -/
structure Store where
  dicts : List PresentDict
deriving DecidableEq

/-- The module-level dict `_PRESENT` as initialized at import time. -/
def PRESENT_init : PresentDict :=
  verb.PRESENT_LIST.map (fun p => (p, none))

/-- The store right after `import cmdict.german.verb`: the single
module-level dict lives at address 0. -/
def store0 : Store := { dicts := [PRESENT_init] }

/-- Python `d[k] = v` on a dict whose keys already include `k` (every write
in `crawl_present` targets one of the six keys present from the start). -/
def dictWrite (d : PresentDict) (k v : String) : PresentDict :=
  d.map (fun kv => if kv.1 == k then (kv.1, some v) else kv)

/-- Write `k ↦ v` through the dict reference `ref`. -/
def storeWrite (st : Store) (ref : Nat) (k v : String) : Store :=
  { dicts := st.dicts.set ref (dictWrite (st.dicts.getD ref []) k v) }

/-- A constructed `Verb` object: its spelling and the address its `present`
attribute refers to. -/
structure VerbRef where
  spelling : String
  presentRef : Nat
deriving DecidableEq

/-- The loop of `Verb.crawl_present`, writing through the shared reference;
pronoun slots and list items are walked in lockstep as in
`verb.crawlPresentAux`. -/
def crawlPresentS (ref : Nat) :
    List String → List String → Store → Option Store
  | [], _, st => some st
  | _ :: _, [], _ => none
  | which :: ps, li :: lis, st =>
    match (pySplit li " ").get? 1 with
    | none => none
    | some how => crawlPresentS ref ps lis (storeWrite st ref which how)

/-- `Verb.__init__` at the store level: `self.present = _PRESENT` records
address 0 (the module-level dict itself), then `crawl_present` mutates it. -/
def buildS (lis : List String) (spelling : String) (st : Store) :
    Option (VerbRef × Store) :=
  match crawlPresentS 0 verb.PRESENT_LIST lis st with
  | none => none
  | some st' => some ({ spelling := spelling, presentRef := 0 }, st')

/-- The observable present-tense map of a constructed verb in a store. -/
def presentOf (st : Store) (v : VerbRef) : Option PresentDict :=
  st.dicts.get? v.presentRef

end verbstore

/-! ## Claim theorems -/

/-- C3, claim as stated is false: `crawl_pos_de` does raise on a 200
response whose JSON body is an empty array — `crawled.json()[0]` raises
`IndexError`, so the function does not return one of `{Verb, Noun, None}`
at this input. -/
theorem C3_counterexample :
    crawl_pos_de "Wort" "key"
        { statusCode := 200, jsonBody := some (Json.jarr []) }
      = Except.error () := rfl

/-- C3 amended: for every `(word, apiKey)` pair and every response,
`crawl_pos_de` returns `None` without raising on any non-200 status, and
returns exactly one of `{Verb, Noun, None}` whenever the first entry's
grammatical-class field resolves to a string; it raises only on a 200
response whose body is malformed (undecodable, or missing the fixed
`[0].hits[0].roms[0].wordclass` path, or non-string at that path). -/
theorem C3_amended (word id_api : String) (resp : HttpResponse) :
    (resp.statusCode ≠ 200 → crawl_pos_de word id_api resp = Except.ok none) ∧
    (∀ s : String, wordclassOf resp.jsonBody = some (Json.jstr s) →
      ∃ p : Option PartOfSpeechDe, crawl_pos_de word id_api resp = Except.ok p ∧
        (p = some PartOfSpeechDe.Verb ∨ p = some PartOfSpeechDe.Noun ∨ p = none)) := by
  constructor
  · intro h
    unfold crawl_pos_de
    rw [if_neg h]
  · intro s hs
    unfold crawl_pos_de
    by_cases h200 : resp.statusCode = 200
    · rw [if_pos h200, hs]
      by_cases hv : "verb" ∈ pySplit s " "
      · exact ⟨some PartOfSpeechDe.Verb, by simp [hv], Or.inl rfl⟩
      · by_cases hn : "noun" ∈ pySplit s " "
        · exact ⟨some PartOfSpeechDe.Noun, by simp [hv, hn], Or.inr (Or.inl rfl)⟩
        · exact ⟨none, by simp [hv, hn], Or.inr (Or.inr rfl)⟩
    · exact ⟨none, by rw [if_neg h200], Or.inr (Or.inr rfl)⟩

/-- A 404 response and a well-formed 200 noun response, for the C3 witness. -/
def respNoun200 : HttpResponse :=
  { statusCode := 200,
    jsonBody := some (Json.jarr [Json.jobj [("hits", Json.jarr [Json.jobj
      [("roms", Json.jarr [Json.jobj [("wordclass", Json.jstr "noun")]])]])]]) }

/-- Witness for `C3_amended` at concrete inputs: a 404 response yields
`ok none`, and a well-formed 200 response with word class `"noun"` yields
one of the three permitted results. -/
theorem C3_amended_witness :
    crawl_pos_de "schön" "key" { statusCode := 404, jsonBody := none }
        = Except.ok none ∧
    ∃ p : Option PartOfSpeechDe, crawl_pos_de "Hilfe" "key" respNoun200 = Except.ok p ∧
      (p = some PartOfSpeechDe.Verb ∨ p = some PartOfSpeechDe.Noun ∨ p = none) :=
  ⟨(C3_amended "schön" "key" { statusCode := 404, jsonBody := none }).1 (by decide),
   (C3_amended "Hilfe" "key" respNoun200).2 "noun" (by rfl)⟩

/-- C7: on a 200 response whose first entry's grammatical-class field parses
to the string `s`, `crawl_pos_de` returns `Verb` when `"verb"` occurs among
the space-split tokens of `s`, else `Noun` when `"noun"` occurs among them,
else `None` — `Verb` taking priority when both occur. -/
theorem C7_token_match (word id_api : String) (resp : HttpResponse) (s : String)
    (h200 : resp.statusCode = 200)
    (hpath : wordclassOf resp.jsonBody = some (Json.jstr s)) :
    ("verb" ∈ pySplit s " " →
      crawl_pos_de word id_api resp = Except.ok (some PartOfSpeechDe.Verb)) ∧
    ("verb" ∉ pySplit s " " → "noun" ∈ pySplit s " " →
      crawl_pos_de word id_api resp = Except.ok (some PartOfSpeechDe.Noun)) ∧
    ("verb" ∉ pySplit s " " → "noun" ∉ pySplit s " " →
      crawl_pos_de word id_api resp = Except.ok none) := by
  unfold crawl_pos_de
  rw [if_pos h200, hpath]
  exact ⟨fun hv => by simp [hv],
         fun hv hn => by simp [hv, hn],
         fun hv hn => by simp [hv, hn]⟩

/-- A 200 response whose word class mentions both tags, for the C7 witness. -/
def respVerbNoun200 : HttpResponse :=
  { statusCode := 200,
    jsonBody := some (Json.jarr [Json.jobj [("hits", Json.jarr [Json.jobj
      [("roms", Json.jarr [Json.jobj [("wordclass", Json.jstr "verb noun")]])]])]]) }

/-- Witness for `C7_token_match`: with word class `"verb noun"` both tokens
occur and `Verb` wins. -/
theorem C7_token_match_witness :
    crawl_pos_de "schlafen" "key" respVerbNoun200
      = Except.ok (some PartOfSpeechDe.Verb) :=
  (C7_token_match "schlafen" "key" respVerbNoun200 "verb noun" rfl rfl).1 (by decide)

/-- A concrete checker agreeing with the spell-check contract: the German
dictionary contains `"dank"` and `"dann"` (and, for the sake of the claim's
own hypothesis, the capitalized `"Dank"`), and known words correct to
themselves. -/
def ckDank : Checker :=
  { dictWords := ["dank", "dann", "Dank"],
    correction := fun s =>
      if s = "dank" then "dank"
      else if s = "dann" then "dann"
      else if s = "Dank" then "Dank"
      else "dann" }

/-- C4, claim as stated is false: even for a checker whose dictionary
contains `"Dank"` itself and corrects every known word to itself,
`check_de` returns `"dank"`, not the unchanged input `"Dank"` — the input
is lower-cased before the dictionary is consulted.  (The repository's own
test asserts `check_de("Dank") == "dank"`.) -/
theorem C4_counterexample :
    ("Dank" ∈ ckDank.dictWords ∧ ∀ w ∈ ckDank.dictWords, ckDank.correction w = w) ∧
    check_de ckDank "Dank" = "dank" ∧ "dank" ≠ "Dank" := by decide

/-- C4 amended: for every input whose lower-cased form is present in the
spelling dictionary, `check_de` returns that lower-cased form (so an
already-valid lower-case input is returned unchanged, and
`check_de("Dank") = "dank"` with the capitalization folded away). -/
theorem C4_amended (ck : Checker) (s : String)
    (hknown : ∀ w ∈ ck.dictWords, ck.correction w = w)
    (hmem : pyLower s ∈ ck.dictWords) :
    check_de ck s = pyLower s :=
  hknown _ hmem

/-- Witness for `C4_amended` at the concrete checker and input `"Dank"`. -/
theorem C4_amended_witness : check_de ckDank "Dank" = pyLower "Dank" :=
  C4_amended ckDank "Dank" (by decide) (by decide)

/-- C10: `check_de` is case-insensitive in its result — the input is
lower-cased before the dictionary lookup, and lower-casing is idempotent, so
`check_de s = check_de (s.lower())` for every checker and every input. -/
theorem C10_case_insensitive (ck : Checker) (s : String) :
    check_de ck s = check_de ck (pyLower s) := by
  unfold check_de
  rw [pyLower_idem]

/-- C8: whenever the syllabification marker is present with text `t`, `Word`
construction succeeds and stores exactly the part of `t` before the first
comma — with no hypothesis relating that value to the requested spelling, so
a center-dot-stripped mismatch (which is only logged) changes nothing. -/
theorem C8_mismatch_nonfatal (env : String → WikiPage) (spelling t : String)
    (h : (env spelling).syllabText = some t) :
    ∃ w : Word, Word.build env spelling = some w ∧
      w.syllabification = (pySplit t ",").headD "" := by
  unfold Word.build
  simp only [h]
  exact ⟨_, rfl, rfl⟩

/-- An environment whose scraped syllabification (`"Kin·de, Plural"`)
disagrees with the requested spelling `"Kind"` after stripping the center
dot, for the C8 witness. -/
def mismatchEnv : String → WikiPage :=
  fun _ => { ipaSpan := some "kɪnt", syllabText := some "Kin·de, Plural" }

/-- Witness for `C8_mismatch_nonfatal`: the mismatching scraped value is
still accepted and stored (only its part before the first comma). -/
theorem C8_mismatch_nonfatal_witness :
    (∃ w : Word, Word.build mismatchEnv "Kind" = some w ∧
      w.syllabification = (pySplit "Kin·de, Plural" ",").headD "") ∧
    remove_cdot ((pySplit "Kin·de, Plural" ",").headD "") ≠ "Kind" :=
  ⟨C8_mismatch_nonfatal mismatchEnv "Kind" "Kin·de, Plural" rfl, by decide⟩

/-- C9 is a code bug: on a cell holding three homograph spellings (three
sub-elements, three article-separated forms), `Noun._assign_tables` parses
successfully and silently keeps only the first two spellings — `"Dritte"`
is dropped with no error, while the spec requires an explicit failure. -/
theorem C9_third_spelling_dropped :
    noun.parseCellRaw { text := "der Bogen\nder Bögen\nder Dritte", subElementCount := 3 }
      = some ("der", ["Bogen", "Bögen"]) ∧
    "Dritte" ∉ ["Bogen", "Bögen"] := by decide

/-- A wiktionary environment whose every page carries an IPA span and a
syllabification marker, for the C5 evaluation. -/
def envC5 : String → WikiPage :=
  fun s => { ipaSpan := some "ipa", syllabText := some s }

/-- A well-formed inflection-table body for `"Fußball"` (header row, then
the four case rows; the genitive singular cell carries two homographs). -/
def fussballRows : List (List noun.Cell) :=
  [[{ text := "Header", subElementCount := 0 }],
   [{ text := "der Fußball", subElementCount := 0 },
    { text := "die Fußbälle", subElementCount := 0 }],
   [{ text := "des Fußballs\ndes Fußballes", subElementCount := 2 },
    { text := "der Fußbälle", subElementCount := 0 }],
   [{ text := "dem Fußball", subElementCount := 0 },
    { text := "den Fußbällen", subElementCount := 0 }],
   [{ text := "den Fußball", subElementCount := 0 },
    { text := "die Fußbälle", subElementCount := 0 }]]

/-- C5 is a code bug: `Noun.__init__` assigns the constant `Gender.N`, so a
fully successful construction for the masculine noun `"fußball"` still
reports neuter — the gender never reflects the word's actual grammatical
gender, contradicting the repository's own test
(`test_noun_football` expects `Gender.M` and a resolved `article_def`
attribute, which `Noun` does not even define).  The fixed definite-article
table itself does map (singular, masculine, nominative) to `"der"` and
(singular, neuter, nominative) to `"das"` as the claim says. -/
theorem C5_gender_is_constant :
    ((noun.Noun.build envC5 "fußball" fussballRows).map (fun n => n.gender)
        = some noun.Gender.N) ∧
    noun.Gender.N ≠ noun.Gender.M ∧
    article.ARTICLES_DEF (true, article.Gender.M, article.Case.N) = some "der" ∧
    article.ARTICLES_DEF (true, article.Gender.N, article.Case.N) = some "das" := by
  decide

/-- The conjugation-page list items for `"schlafen"`. -/
def schlafenLis : List String :=
  ["ich schlafe", "du schläfst", "er schläft",
   "wir schlafen", "ihr schlaft", "sie schlafen"]

/-- The conjugation-page list items for `"gehen"`. -/
def gehenLis : List String :=
  ["ich gehe", "du gehst", "er geht", "wir gehen", "ihr geht", "sie gehen"]

/-- The shared dict's contents after constructing the verb `"schlafen"`. -/
def presentSchlafen : verbstore.PresentDict :=
  [("ich", some "schlafe"), ("du", some "schläfst"), ("er", some "schläft"),
   ("wir", some "schlafen"), ("ihr", some "schlaft"), ("sie", some "schlafen")]

/-- The shared dict's contents after constructing the verb `"gehen"`. -/
def presentGehen : verbstore.PresentDict :=
  [("ich", some "gehe"), ("du", some "gehst"), ("er", some "geht"),
   ("wir", some "gehen"), ("ihr", some "geht"), ("sie", some "gehen")]

/-- C6 is a code bug: `self.present = _PRESENT` stores a reference to the
module-level dictionary, so all `Verb` objects alias one dict.  Constructing
`Verb("schlafen")` and then `Verb("gehen")` makes the first verb's observable
present-tense map change from schlafen's conjugations to gehen's — the
second construction does not leave the first object's fields unchanged. -/
theorem C6_shared_present_dict :
    verbstore.buildS schlafenLis "schlafen" verbstore.store0
      = some ({ spelling := "schlafen", presentRef := 0 },
              { dicts := [presentSchlafen] }) ∧
    verbstore.buildS gehenLis "gehen" { dicts := [presentSchlafen] }
      = some ({ spelling := "gehen", presentRef := 0 },
              { dicts := [presentGehen] }) ∧
    verbstore.presentOf { dicts := [presentSchlafen] }
        { spelling := "schlafen", presentRef := 0 } = some presentSchlafen ∧
    verbstore.presentOf { dicts := [presentGehen] }
        { spelling := "schlafen", presentRef := 0 } = some presentGehen ∧
    presentSchlafen ≠ presentGehen := by
  decide

/-- Field facts of a successful `parseCellRaw`: the article is the cell
text's first space-token and the spelling list is non-empty (it holds one or
two spellings by construction). -/
theorem parseCellRaw_fields {cell : noun.Cell} {art : String} {ss : List String}
    (h : noun.parseCellRaw cell = some (art, ss)) :
    art = noun.cellArticle cell ∧ ss ≠ [] := by
  unfold noun.parseCellRaw at h
  split at h
  · split at h
    · injection h with h'
      injection h' with ha hs
      exact ⟨ha.symm, by rw [← hs]; simp⟩
    · exact Option.noConfusion h
  · split at h
    · injection h with h'
      injection h' with ha hs
      exact ⟨ha.symm, by rw [← hs]; simp⟩
    · exact Option.noConfusion h

/-- Field facts of a successful `parseCell`: the entry records the method it
was parsed under, its article is the cell text's first space-token, and its
spelling list is non-empty. -/
theorem parseCell_fields {env : String → WikiPage} {origin : String}
    {m : noun.DeclensionMethod} {cell : noun.Cell} {entry : noun.NounEntry}
    (h : noun.parseCell env origin m cell = some entry) :
    entry.method = m ∧ entry.article = noun.cellArticle cell ∧
      entry.spellings ≠ [] := by
  unfold noun.parseCell at h
  split at h
  · exact Option.noConfusion h
  · rename_i art ss hraw
    split at h
    · exact Option.noConfusion h
    · injection h with h'
      subst h'
      obtain ⟨ha, hs⟩ := parseCellRaw_fields hraw
      exact ⟨rfl, ha, hs⟩

/-- A wiktionary environment whose every page carries an IPA span and a
syllabification marker, for the C1 theorems. -/
def envC1 : String → WikiPage :=
  fun s => { ipaSpan := some "i", syllabText := some s }

/-- A table body of 5 rows with 2 cells each whose cell texts contain no
space: `cell.text.split(article + " ")[1]` raises `IndexError`. -/
def badRows : List (List noun.Cell) :=
  List.replicate 5
    [{ text := "x", subElementCount := 0 }, { text := "x", subElementCount := 0 }]

/-- C1, claim as stated is false: this table body has 5 rows of 2 `td` cells
each, yet `Noun._assign_tables` raises instead of populating the 8 slots —
each cell's text `"x"` has no space, so splitting it on `"x "` yields a
single piece and piece 1 does not exist (`IndexError`). -/
theorem C1_counterexample :
    (5 ≤ badRows.length ∧ ∀ r ∈ badRows, 2 ≤ r.length) ∧
    noun.assignTables envC1 "Kind" badRows = none := by decide

/-- C1 amended: for every inflection table whose body has at least 5 rows
each containing at least 2 `td` cells, provided each of the 8 visited cells
parses successfully (its text contains the article token followed by a space
at the required one or two positions, and each parsed spelling's wiktionary
page carries the syllabification marker) and has a non-empty first
space-token, `Noun._assign_tables` populates exactly the 8 declension slots
in the fixed order NS,NP,GS,GP,DS,DP,AS,AP — rows 1-4 giving cases N,G,D,A
in order with the left cell singular and the right cell plural — each slot
having a non-empty article string (the cell's first space-token) and a
non-empty spelling list. -/
theorem C1_amended (env : String → WikiPage) (origin : String)
    (a b c d e f g h : noun.Cell)
    (r0 ta tb tc td : List noun.Cell) (rest : List (List noun.Cell))
    (hpa : (noun.parseCell env origin noun.DeclensionMethod.NS a).isSome = true)
    (hpb : (noun.parseCell env origin noun.DeclensionMethod.NP b).isSome = true)
    (hpc : (noun.parseCell env origin noun.DeclensionMethod.GS c).isSome = true)
    (hpd : (noun.parseCell env origin noun.DeclensionMethod.GP d).isSome = true)
    (hpe : (noun.parseCell env origin noun.DeclensionMethod.DS e).isSome = true)
    (hpf : (noun.parseCell env origin noun.DeclensionMethod.DP f).isSome = true)
    (hpg : (noun.parseCell env origin noun.DeclensionMethod.AS g).isSome = true)
    (hph : (noun.parseCell env origin noun.DeclensionMethod.AP h).isSome = true)
    (hna : noun.cellArticle a ≠ "") (hnb : noun.cellArticle b ≠ "")
    (hnc : noun.cellArticle c ≠ "") (hnd : noun.cellArticle d ≠ "")
    (hne : noun.cellArticle e ≠ "") (hnf : noun.cellArticle f ≠ "")
    (hng : noun.cellArticle g ≠ "") (hnh : noun.cellArticle h ≠ "") :
    ∃ out : List noun.NounEntry,
      noun.assignTables env origin
          (r0 :: (a :: b :: ta) :: (c :: d :: tb) :: (e :: f :: tc)
            :: (g :: h :: td) :: rest)
        = some out ∧
      out.map (fun entry => entry.method) = noun.DeclensionMethod.order ∧
      out.map (fun entry => entry.article)
        = [noun.cellArticle a, noun.cellArticle b, noun.cellArticle c,
           noun.cellArticle d, noun.cellArticle e, noun.cellArticle f,
           noun.cellArticle g, noun.cellArticle h] ∧
      ∀ entry ∈ out, entry.article ≠ "" ∧ entry.spellings ≠ [] := by
  obtain ⟨ea, hea⟩ := Option.isSome_iff_exists.mp hpa
  obtain ⟨eb, heb⟩ := Option.isSome_iff_exists.mp hpb
  obtain ⟨ec, hec⟩ := Option.isSome_iff_exists.mp hpc
  obtain ⟨ed, hed⟩ := Option.isSome_iff_exists.mp hpd
  obtain ⟨ee, hee⟩ := Option.isSome_iff_exists.mp hpe
  obtain ⟨ef, hef⟩ := Option.isSome_iff_exists.mp hpf
  obtain ⟨eg, heg⟩ := Option.isSome_iff_exists.mp hpg
  obtain ⟨eh, heh⟩ := Option.isSome_iff_exists.mp hph
  have fa := parseCell_fields hea
  have fb := parseCell_fields heb
  have fc := parseCell_fields hec
  have fd := parseCell_fields hed
  have fe := parseCell_fields hee
  have ff := parseCell_fields hef
  have fg := parseCell_fields heg
  have fh := parseCell_fields heh
  refine ⟨[ea, eb, ec, ed, ee, ef, eg, eh], ?_, ?_, ?_, ?_⟩
  · show noun.assignCells env origin [a, b, c, d, e, f, g, h]
        noun.DeclensionMethod.order = some [ea, eb, ec, ed, ee, ef, eg, eh]
    simp only [noun.DeclensionMethod.order, noun.assignCells,
      hea, heb, hec, hed, hee, hef, heg, heh, Option.some_bind]
  · simp only [List.map]
    rw [fa.1, fb.1, fc.1, fd.1, fe.1, ff.1, fg.1, fh.1]
    rfl
  · simp only [List.map]
    rw [fa.2.1, fb.2.1, fc.2.1, fd.2.1, fe.2.1, ff.2.1, fg.2.1, fh.2.1]
  · intro entry hentry
    simp only [List.mem_cons, List.not_mem_nil, or_false] at hentry
    rcases hentry with rfl | rfl | rfl | rfl | rfl | rfl | rfl | rfl
    · exact ⟨by rw [fa.2.1]; exact hna, fa.2.2⟩
    · exact ⟨by rw [fb.2.1]; exact hnb, fb.2.2⟩
    · exact ⟨by rw [fc.2.1]; exact hnc, fc.2.2⟩
    · exact ⟨by rw [fd.2.1]; exact hnd, fd.2.2⟩
    · exact ⟨by rw [fe.2.1]; exact hne, fe.2.2⟩
    · exact ⟨by rw [ff.2.1]; exact hnf, ff.2.2⟩
    · exact ⟨by rw [fg.2.1]; exact hng, fg.2.2⟩
    · exact ⟨by rw [fh.2.1]; exact hnh, fh.2.2⟩

/-- A well-formed inflection-table body for `"Kind"` (header row, then the
four case rows; two cells carry two homographs each). -/
def kindRows : List (List noun.Cell) :=
  [[{ text := "Header", subElementCount := 0 }],
   [{ text := "das Kind", subElementCount := 0 },
    { text := "die Kinder", subElementCount := 0 }],
   [{ text := "des Kindes\ndes Kinds", subElementCount := 2 },
    { text := "der Kinder", subElementCount := 0 }],
   [{ text := "dem Kind\ndem Kinde", subElementCount := 2 },
    { text := "den Kindern", subElementCount := 0 }],
   [{ text := "das Kind", subElementCount := 0 },
    { text := "die Kinder", subElementCount := 0 }]]

/-- Witness for `C1_amended` at the concrete `"Kind"` table. -/
theorem C1_amended_witness :
    ∃ out : List noun.NounEntry,
      noun.assignTables envC1 "Kind" kindRows = some out ∧
      out.map (fun entry => entry.method) = noun.DeclensionMethod.order ∧
      out.map (fun entry => entry.article)
        = [noun.cellArticle { text := "das Kind", subElementCount := 0 },
           noun.cellArticle { text := "die Kinder", subElementCount := 0 },
           noun.cellArticle { text := "des Kindes\ndes Kinds", subElementCount := 2 },
           noun.cellArticle { text := "der Kinder", subElementCount := 0 },
           noun.cellArticle { text := "dem Kind\ndem Kinde", subElementCount := 2 },
           noun.cellArticle { text := "den Kindern", subElementCount := 0 },
           noun.cellArticle { text := "das Kind", subElementCount := 0 },
           noun.cellArticle { text := "die Kinder", subElementCount := 0 }] ∧
      ∀ entry ∈ out, entry.article ≠ "" ∧ entry.spellings ≠ [] :=
  C1_amended envC1 "Kind"
    { text := "das Kind", subElementCount := 0 }
    { text := "die Kinder", subElementCount := 0 }
    { text := "des Kindes\ndes Kinds", subElementCount := 2 }
    { text := "der Kinder", subElementCount := 0 }
    { text := "dem Kind\ndem Kinde", subElementCount := 2 }
    { text := "den Kindern", subElementCount := 0 }
    { text := "das Kind", subElementCount := 0 }
    { text := "die Kinder", subElementCount := 0 }
    [{ text := "Header", subElementCount := 0 }] [] [] [] [] []
    (by decide) (by decide) (by decide) (by decide)
    (by decide) (by decide) (by decide) (by decide)
    (by decide) (by decide) (by decide) (by decide)
    (by decide) (by decide) (by decide) (by decide)

/-- A wiktionary environment whose every page carries an IPA span and a
syllabification marker, for the C2 theorems. -/
def envC2 : String → WikiPage :=
  fun s => { ipaSpan := some "i", syllabText := some s }

/-- A conjugation-page list with 6 items whose last item has no space, so
`text.split(" ")[1]` raises `IndexError`. -/
def badLis : List String :=
  ["ich schlafe", "du schläfst", "er schläft", "wir schlafen", "ihr schlaft",
   "schlafen"]

/-- C2, claim as stated is false: this conjugation page has the expected
container with 6 list items, yet `Verb` construction raises instead of
populating the 6 pronoun slots — the sixth item's text `"schlafen"` has no
second space-separated token. -/
theorem C2_counterexample :
    6 ≤ badLis.length ∧ verb.Verb.build envC2 badLis "schlafen" = none := by
  decide

/-- Evaluation lemma for `VerbConjugation.build` when the conjugated form's
wiktionary page carries the syllabification marker. -/
theorem conjBuild_eq (env : String → WikiPage)
    (which how origin t : String) (h : (env how).syllabText = some t) :
    verb.VerbConjugation.build env which how origin
      = some { which := which, origin := origin,
               word := { spelling := how, ipa := ipaOf (env how),
                         syllabification := (pySplit t ",").headD "" } } := by
  unfold verb.VerbConjugation.build
  rw [wordBuild_eq env how t h]
  rfl

/-- C2 amended: for every conjugation page containing the expected container
with at least 6 list items, provided the verb's own wiktionary page carries
the syllabification marker, each of the first 6 items' text has a second
space-separated token, and each such token's own wiktionary page carries a
syllabification marker whose before-first-comma part is non-empty, `Verb`
construction populates exactly the 6 pronoun slots in the fixed order
ich,du,er,wir,ihr,sie, each slot's conjugated surface form being the second
space-separated token of the corresponding list item's text and each slot's
word profile having a non-empty syllabified form.  Without these provisos
construction raises (e.g. an item text with no space aborts with
`IndexError`). -/
theorem C2_amended (env : String → WikiPage) (spelling : String)
    (l0 l1 l2 l3 l4 l5 : String) (rest : List String)
    (how0 how1 how2 how3 how4 how5 : String)
    (t0 t1 t2 t3 t4 t5 tb : String)
    (hbase : (env spelling).syllabText = some tb)
    (h0 : (pySplit l0 " ").get? 1 = some how0)
    (hs0 : (env how0).syllabText = some t0)
    (hn0 : (pySplit t0 ",").headD "" ≠ "")
    (h1 : (pySplit l1 " ").get? 1 = some how1)
    (hs1 : (env how1).syllabText = some t1)
    (hn1 : (pySplit t1 ",").headD "" ≠ "")
    (h2 : (pySplit l2 " ").get? 1 = some how2)
    (hs2 : (env how2).syllabText = some t2)
    (hn2 : (pySplit t2 ",").headD "" ≠ "")
    (h3 : (pySplit l3 " ").get? 1 = some how3)
    (hs3 : (env how3).syllabText = some t3)
    (hn3 : (pySplit t3 ",").headD "" ≠ "")
    (h4 : (pySplit l4 " ").get? 1 = some how4)
    (hs4 : (env how4).syllabText = some t4)
    (hn4 : (pySplit t4 ",").headD "" ≠ "")
    (h5 : (pySplit l5 " ").get? 1 = some how5)
    (hs5 : (env how5).syllabText = some t5)
    (hn5 : (pySplit t5 ",").headD "" ≠ "") :
    ∃ v : verb.Verb,
      verb.Verb.build env (l0 :: l1 :: l2 :: l3 :: l4 :: l5 :: rest) spelling
        = some v ∧
      v.present.map (fun slot => slot.1) = verb.PRESENT_LIST ∧
      v.present.map (fun slot => slot.2.word.spelling)
        = [how0, how1, how2, how3, how4, how5] ∧
      ∀ slot ∈ v.present, slot.2.word.syllabification ≠ "" := by
  have hwb := wordBuild_eq env spelling tb hbase
  have hc0 := conjBuild_eq env "ich" how0 spelling t0 hs0
  have hc1 := conjBuild_eq env "du" how1 spelling t1 hs1
  have hc2 := conjBuild_eq env "er" how2 spelling t2 hs2
  have hc3 := conjBuild_eq env "wir" how3 spelling t3 hs3
  have hc4 := conjBuild_eq env "ihr" how4 spelling t4 hs4
  have hc5 := conjBuild_eq env "sie" how5 spelling t5 hs5
  refine ⟨{ word := { spelling := spelling, ipa := ipaOf (env spelling),
                      syllabification := (pySplit tb ",").headD "" },
            present :=
              [("ich", { which := "ich", origin := spelling,
                         word := { spelling := how0, ipa := ipaOf (env how0),
                                   syllabification := (pySplit t0 ",").headD "" } }),
               ("du", { which := "du", origin := spelling,
                        word := { spelling := how1, ipa := ipaOf (env how1),
                                  syllabification := (pySplit t1 ",").headD "" } }),
               ("er", { which := "er", origin := spelling,
                        word := { spelling := how2, ipa := ipaOf (env how2),
                                  syllabification := (pySplit t2 ",").headD "" } }),
               ("wir", { which := "wir", origin := spelling,
                         word := { spelling := how3, ipa := ipaOf (env how3),
                                   syllabification := (pySplit t3 ",").headD "" } }),
               ("ihr", { which := "ihr", origin := spelling,
                         word := { spelling := how4, ipa := ipaOf (env how4),
                                   syllabification := (pySplit t4 ",").headD "" } }),
               ("sie", { which := "sie", origin := spelling,
                         word := { spelling := how5, ipa := ipaOf (env how5),
                                   syllabification := (pySplit t5 ",").headD "" } })] },
          ?_, ?_, ?_, ?_⟩
  · simp only [verb.Verb.build, verb.PRESENT_LIST, verb.crawlPresentAux,
      hwb, h0, h1, h2, h3, h4, h5, hc0, hc1, hc2, hc3, hc4, hc5]
  · rfl
  · rfl
  · intro slot hslot
    simp only [List.mem_cons, List.not_mem_nil, or_false] at hslot
    rcases hslot with rfl | rfl | rfl | rfl | rfl | rfl
    · exact hn0
    · exact hn1
    · exact hn2
    · exact hn3
    · exact hn4
    · exact hn5

/-- Witness for `C2_amended` at the concrete `"schlafen"` conjugation page. -/
theorem C2_amended_witness :
    ∃ v : verb.Verb,
      verb.Verb.build envC2
          ["ich schlafe", "du schläfst", "er schläft", "wir schlafen",
           "ihr schlaft", "sie schlafen"] "schlafen"
        = some v ∧
      v.present.map (fun slot => slot.1) = verb.PRESENT_LIST ∧
      v.present.map (fun slot => slot.2.word.spelling)
        = ["schlafe", "schläfst", "schläft", "schlafen", "schlaft", "schlafen"] ∧
      ∀ slot ∈ v.present, slot.2.word.syllabification ≠ "" :=
  C2_amended envC2 "schlafen"
    "ich schlafe" "du schläfst" "er schläft" "wir schlafen" "ihr schlaft"
    "sie schlafen" []
    "schlafe" "schläfst" "schläft" "schlafen" "schlaft" "schlafen"
    "schlafe" "schläfst" "schläft" "schlafen" "schlaft" "schlafen" "schlafen"
    rfl
    (by decide) rfl (by decide)
    (by decide) rfl (by decide)
    (by decide) rfl (by decide)
    (by decide) rfl (by decide)
    (by decide) rfl (by decide)
    (by decide) rfl (by decide)
